import Mathlib

/-!
Verification of the yantra dimension generator.

The repository computes construction dimensions for historical astronomical
instruments from a site latitude, longitude and scale radius, in four Python
files: `yantra_core.py` (the core calculator), `yantra_app.py` (console entry
point with input validation), `yantra_report_app.py` (a self-contained copy of
the core calculator plus console report), and `yantra_web_app.py` (interactive
UI variant with its own formula set).

Numbers are modelled by `ℚ`.  The only non-rational ingredients of the source
are `math.tan`, `math.sin` and `math.cos` applied to `math.radians` of a
degree value; these composites are modelled by oracle functions `ℚ → ℚ`
passed as parameters, and the predicate `TanDegAccurate` ties an oracle to the
mathematical `Real.tan` where a claim depends on the actual value.
Python's `f"{x:.3f}"` fixed-point formatting is modelled by `fmtFixed` using
round-half-to-even, matching Python's formatting of an exact decimal value,
and Python's `int` / `//` / `%` on the (non-negative) quantities appearing in
the source are modelled by `Int.floor` and `pyFloorMod`.
-/

/-- Two-digit zero padding, as Python's `f"{n:02d}"` for non-negative `n`. -/
def pad2 (n : ℕ) : String :=
  if n < 10 then "0" ++ toString n else toString n

/-- Left-pad a digit string with zeros to width `w`. -/
def padLeftZeros (w : ℕ) (s : String) : String :=
  if s.length < w then String.mk (List.replicate (w - s.length) '0') ++ s else s

/-- Round a rational to the nearest integer, ties to even (Python rounding). -/
def roundHalfEven (q : ℚ) : ℤ :=
  let n : ℤ := Int.floor q
  let f : ℚ := q - (n : ℚ)
  if f < 1/2 then n
  else if 1/2 < f then n + 1
  else if n % 2 = 0 then n else n + 1

/-- Render a non-negative scaled integer `n` as a fixed-point numeral with
`prec` decimal places (`n` is the value multiplied by `10 ^ prec`). -/
def renderScaled (prec : ℕ) (n : ℕ) : String :=
  toString (n / 10 ^ prec) ++ "." ++ padLeftZeros prec (toString (n % 10 ^ prec))

/-- Python's `f"{q:.prec f}"` fixed-point formatting of an exact rational. -/
def fmtFixed (prec : ℕ) (q : ℚ) : String :=
  if q < 0 then "-" ++ renderScaled prec (roundHalfEven (-q * 10 ^ prec)).toNat
  else renderScaled prec (roundHalfEven (q * 10 ^ prec)).toNat

/-- Python's `%` on rationals (floor-convention remainder), used with a
positive modulus in the source. -/
def pyFloorMod (a b : ℚ) : ℚ :=
  a - b * ((Int.floor (a / b) : ℤ) : ℚ)

/-- Whether `p` is a prefix of `s`, on character lists. -/
def charListHasPref : List Char → List Char → Bool
  | _, [] => true
  | [], _ :: _ => false
  | a :: s, b :: p => a == b && charListHasPref s p

/-- Whether `p` occurs as a contiguous substring of `s`, on character lists. -/
def charListHasSub : List Char → List Char → Bool
  | [], p => charListHasPref [] p
  | a :: t, p => charListHasPref (a :: t) p || charListHasSub t p

/-- Python's substring test `pat in s`. -/
def pyContains (s pat : String) : Bool :=
  charListHasSub s.data pat.data

/-- Python's `s.split()[0]`: the first whitespace-separated word (for input
containing a word; Python raises on all-whitespace input instead). -/
def pyFirstWord (s : String) : String :=
  String.mk ((s.data.dropWhile (fun c => c == ' ')).takeWhile (fun c => !(c == ' ')))

/-- Result record of `calculate_yantra_dimensions` (the Python dict returned
by `yantra_core.py`, one field per key). -/
structure YantraDimensions where
  phi : String
  lmbda : String
  R : String
  time_offset_str : String
  time_offset_min : ℚ
  samrat_angle : String
  samrat_height : String
  nadivalaya_tilt : String
  bhitti_alignment : String
  rasivalaya_zd_ss : String
  rasivalaya_zd_ws : String
  eot_chart : List (String × ℚ)
deriving DecidableEq

namespace yantra_core

/-- `OBLIQUITY_ECLIPTIC` from `yantra_core.py`. -/
def OBLIQUITY_ECLIPTIC : ℚ := 23.44

/-- `IST_REFERENCE_LONGITUDE` from `yantra_core.py`. -/
def IST_REFERENCE_LONGITUDE : ℚ := 82.5

/-- `calculate_time_offset` from `yantra_core.py`.  Returns the formatted
offset string and the raw signed minute value, exactly as the source. -/
def calculate_time_offset (longitude_lambda : ℚ) : String × ℚ :=
  let longitude_difference := longitude_lambda - IST_REFERENCE_LONGITUDE
  let time_offset_minutes := longitude_difference * 4
  let abs_offset_seconds := |time_offset_minutes| * 60
  let hours := (Int.floor (abs_offset_seconds / 3600)).toNat
  let minutes := (Int.floor (pyFloorMod abs_offset_seconds 3600 / 60)).toNat
  let seconds := (Int.floor (pyFloorMod abs_offset_seconds 60)).toNat
  let direction := if 0 < time_offset_minutes then "AHEAD OF" else "BEHIND"
  (pad2 hours ++ "h " ++ pad2 minutes ++ "m " ++ pad2 seconds ++ "s " ++
    direction ++ " IST", time_offset_minutes)

/-- `calculate_yantra_dimensions` from `yantra_core.py`.  The parameter
`tanDeg` is the oracle for `math.tan (math.radians _)`; everything else is a
direct translation (the `float(...)` coercions are identities here). -/
def calculate_yantra_dimensions (tanDeg : ℚ → ℚ)
    (latitude_phi longitude_lambda base_radius_R : ℚ) : YantraDimensions :=
  let phi := latitude_phi
  let lmbda := longitude_lambda
  let R := base_radius_R
  let samrat_gnomon_angle := phi
  let samrat_gnomon_height := R * tanDeg phi
  let nadivalaya_tilt_angle := 90 - phi
  let bhitti_alignment := "Must be aligned precisely North-South (Local Meridian)"
  let ZD_eq := 90 - phi
  let ZD_ss := ZD_eq - OBLIQUITY_ECLIPTIC
  let ZD_ws := ZD_eq + OBLIQUITY_ECLIPTIC
  let offset := calculate_time_offset lmbda
  { phi := fmtFixed 4 phi ++ "° N"
    lmbda := fmtFixed 4 lmbda ++ "° E"
    R := fmtFixed 3 R
    time_offset_str := offset.1
    time_offset_min := offset.2
    samrat_angle := fmtFixed 3 samrat_gnomon_angle ++ "°"
    samrat_height := fmtFixed 3 samrat_gnomon_height
    nadivalaya_tilt := fmtFixed 3 nadivalaya_tilt_angle ++ "°"
    bhitti_alignment := bhitti_alignment
    rasivalaya_zd_ss := fmtFixed 3 ZD_ss ++ "°"
    rasivalaya_zd_ws := fmtFixed 3 ZD_ws ++ "°"
    eot_chart := [("Feb 11", -14.2), ("May 14", 3.8), ("Nov 03", 16.4)] }

end yantra_core

namespace yantra_report_app

/-- `OBLIQUITY_ECLIPTIC` from `yantra_report_app.py` (a duplicate constant). -/
def OBLIQUITY_ECLIPTIC : ℚ := 23.44

/-- `IST_REFERENCE_LONGITUDE` from `yantra_report_app.py`. -/
def IST_REFERENCE_LONGITUDE : ℚ := 82.5

/-- `calculate_time_offset` as duplicated in `yantra_report_app.py`. -/
def calculate_time_offset (longitude_lambda : ℚ) : String × ℚ :=
  let longitude_difference := longitude_lambda - IST_REFERENCE_LONGITUDE
  let time_offset_minutes := longitude_difference * 4
  let abs_offset_seconds := |time_offset_minutes| * 60
  let hours := (Int.floor (abs_offset_seconds / 3600)).toNat
  let minutes := (Int.floor (pyFloorMod abs_offset_seconds 3600 / 60)).toNat
  let seconds := (Int.floor (pyFloorMod abs_offset_seconds 60)).toNat
  let direction := if 0 < time_offset_minutes then "AHEAD OF" else "BEHIND"
  (pad2 hours ++ "h " ++ pad2 minutes ++ "m " ++ pad2 seconds ++ "s " ++
    direction ++ " IST", time_offset_minutes)

/-- `calculate_yantra_dimensions` as duplicated in `yantra_report_app.py`. -/
def calculate_yantra_dimensions (tanDeg : ℚ → ℚ)
    (latitude_phi longitude_lambda base_radius_R : ℚ) : YantraDimensions :=
  let phi := latitude_phi
  let lmbda := longitude_lambda
  let R := base_radius_R
  let samrat_gnomon_angle := phi
  let samrat_gnomon_height := R * tanDeg phi
  let nadivalaya_tilt_angle := 90 - phi
  let bhitti_alignment := "Must be aligned precisely North-South (Local Meridian)"
  let ZD_eq := 90 - phi
  let ZD_ss := ZD_eq - OBLIQUITY_ECLIPTIC
  let ZD_ws := ZD_eq + OBLIQUITY_ECLIPTIC
  let offset := calculate_time_offset lmbda
  { phi := fmtFixed 4 phi ++ "° N"
    lmbda := fmtFixed 4 lmbda ++ "° E"
    R := fmtFixed 3 R
    time_offset_str := offset.1
    time_offset_min := offset.2
    samrat_angle := fmtFixed 3 samrat_gnomon_angle ++ "°"
    samrat_height := fmtFixed 3 samrat_gnomon_height
    nadivalaya_tilt := fmtFixed 3 nadivalaya_tilt_angle ++ "°"
    bhitti_alignment := bhitti_alignment
    rasivalaya_zd_ss := fmtFixed 3 ZD_ss ++ "°"
    rasivalaya_zd_ws := fmtFixed 3 ZD_ws ++ "°"
    eot_chart := [("Feb 11", -14.2), ("May 14", 3.8), ("Nov 03", 16.4)] }

end yantra_report_app

/-- Degree-trigonometry oracle: components model `math.tan (math.radians _)`,
`math.sin (math.radians _)` and `math.cos (math.radians _)` respectively on
a degree argument. -/
structure TrigDeg where
  tanDeg : ℚ → ℚ
  sinDeg : ℚ → ℚ
  cosDeg : ℚ → ℚ

namespace yantra_web_app

/-- `deg_to_dms` from `yantra_web_app.py`; `none` models Python `None`. -/
def deg_to_dms : Option ℚ → String
  | none => "N/A"
  | some deg0 =>
    let sign : ℤ := 1
    let deg := |deg0|
    let d := Int.floor deg
    let m_float := (deg - (d : ℚ)) * 60
    let m := Int.floor m_float
    let s := (m_float - (m : ℚ)) * 60
    toString (sign * d) ++ "° " ++ toString m ++ "\x27 " ++ fmtFixed 2 s ++ "\x22"

/-- `get_scale_factor` from `yantra_web_app.py`; the substring test
`"Angula" in unit_name` is modelled by `pyContains`, and Python's
`unit_name.split()[0]` by `pyFirstWord`. -/
def get_scale_factor (R_input : ℚ) (unit_name : String) : ℚ × String :=
  if pyContains unit_name ("Angula") then (R_input * 0.02, "m")
  else (R_input, pyFirstWord unit_name)

/-- Result record of `generate_yantra_data` (the dict built in
`yantra_web_app.py`, one field per key).  The `epsilon` field is the constant
string Python renders for `f"{23.44}°"`. -/
structure WebYantraData where
  lat_dms : String
  lon_dms : String
  R_input : ℚ
  unit : String
  unit_symbol : String
  colat_dms : String
  pala_bha : String
  time_corr_min : String
  time_corr_desc : String
  samrat_angle : String
  samrat_r : String
  samrat_base : String
  samrat_height : String
  samrat_declination_ex : String
  bhitti_r : String
  bhitti_pole_alt : String
  bhitti_equator_zd : String
  nadi_tilt : String
  digamsa_diameter : String
  digamsa_pillar : String
  rama_h : String
  rama_r : String
  rama_45deg : String
  epsilon : String
deriving DecidableEq

/-- `generate_yantra_data` from `yantra_web_app.py`, with the local constants
`OBLIQUITY_ECLIPTIC = 23.44` and `IST_MERIDIAN = 82.5` inlined as in the
source body. -/
def generate_yantra_data (T : TrigDeg)
    (lat_deg lon_deg R_input : ℚ) (unit_name : String) : WebYantraData :=
  let IST_MERIDIAN : ℚ := 82.5
  let scaled := get_scale_factor R_input unit_name
  let scale_R_calc := scaled.1
  let unit_symbol := scaled.2
  let height_of_pole_angle := lat_deg
  let colatitude_angle := 90 - lat_deg
  let pala_bha_length := scale_R_calc * T.tanDeg lat_deg
  let time_correction_minutes := (lon_deg - IST_MERIDIAN) * 4
  let gnomon_angle := lat_deg
  let gnomon_base_length := scale_R_calc * T.cosDeg lat_deg
  let gnomon_vertical_height := scale_R_calc * T.sinDeg lat_deg
  { lat_dms := deg_to_dms (some lat_deg)
    lon_dms := deg_to_dms (some lon_deg)
    R_input := R_input
    unit := unit_name
    unit_symbol := unit_symbol
    colat_dms := deg_to_dms (some colatitude_angle)
    pala_bha := fmtFixed 3 pala_bha_length ++ " " ++ unit_symbol
    time_corr_min := fmtFixed 2 time_correction_minutes
    time_corr_desc := "LST is " ++ fmtFixed 2 (|time_correction_minutes|) ++ " min " ++
      (if 0 < time_correction_minutes then "ahead" else "behind") ++ " IST"
    samrat_angle := deg_to_dms (some gnomon_angle)
    samrat_r := fmtFixed 3 scale_R_calc ++ " " ++ unit_symbol
    samrat_base := fmtFixed 3 gnomon_base_length ++ " " ++ unit_symbol
    samrat_height := fmtFixed 3 gnomon_vertical_height ++ " " ++ unit_symbol
    samrat_declination_ex := fmtFixed 3 (scale_R_calc * T.tanDeg 15) ++ " " ++ unit_symbol
    bhitti_r := fmtFixed 3 scale_R_calc ++ " " ++ unit_symbol
    bhitti_pole_alt := deg_to_dms (some height_of_pole_angle)
    bhitti_equator_zd := deg_to_dms (some colatitude_angle)
    nadi_tilt := deg_to_dms (some colatitude_angle)
    digamsa_diameter := fmtFixed 3 (2 * scale_R_calc) ++ " " ++ unit_symbol
    digamsa_pillar := fmtFixed 3 (scale_R_calc / 5) ++ " " ++ unit_symbol
    rama_h := fmtFixed 3 scale_R_calc ++ " " ++ unit_symbol
    rama_r := fmtFixed 3 scale_R_calc ++ " " ++ unit_symbol
    rama_45deg := fmtFixed 3 (scale_R_calc * T.tanDeg 45) ++ " " ++ unit_symbol
    epsilon := "23.44°" }

end yantra_web_app

namespace yantra_app

/-- The validation failures of `main()` in `yantra_app.py`: a `float(...)`
parse error, or one of the three explicit range checks. -/
inductive InvalidInput where
  | notANumber
  | latOutOfRange
  | lonOutOfRange
  | radiusNotPositive
deriving DecidableEq

/-- The three range checks of `main()` in `yantra_app.py`, in source order. -/
def validate_inputs (latitude longitude base_radius : ℚ) :
    Except InvalidInput (ℚ × ℚ × ℚ) :=
  if ¬(0 ≤ latitude ∧ latitude ≤ 90) then .error .latOutOfRange
  else if ¬(0 ≤ longitude ∧ longitude ≤ 180) then .error .lonOutOfRange
  else if base_radius ≤ 0 then .error .radiusNotPositive
  else .ok (latitude, longitude, base_radius)

/-- Parsing plus validation in `main()`: the three `float(input(...))` calls
run before any range check, and a parse failure (modelled by `none`) aborts
with a `ValueError` before the range checks are reached. -/
def parse_and_validate (plat plon prad : Option ℚ) :
    Except InvalidInput (ℚ × ℚ × ℚ) :=
  match plat, plon, prad with
  | some lat, some lon, some rad => validate_inputs lat lon rad
  | _, _, _ => .error .notANumber

/-- `main()` of `yantra_app.py` up to the calculation: on any validation
failure it prints an error and returns with no calculation performed
(modelled by `none`); otherwise it calls the core calculator. -/
def main_result (tanDeg : ℚ → ℚ) (plat plon prad : Option ℚ) :
    Option YantraDimensions :=
  match parse_and_validate plat plon prad with
  | .error _ => none
  | .ok v => some (yantra_core.calculate_yantra_dimensions tanDeg v.1 v.2.1 v.2.2)

end yantra_app

/-- The oracle `t` agrees with the mathematical `tan ∘ radians` at degree
argument `d` to within `1/50000`.  `math.tan` is far more accurate than this,
so any faithful model of the source satisfies it. -/
def TanDegAccurate (t : ℚ → ℚ) (d : ℚ) : Prop :=
  |((t d : ℚ) : ℝ) - Real.tan ((d : ℚ) * Real.pi / 180)| < 1/50000

/-! Evaluation lemmas for the formatting helpers.  The kernel cannot reduce
`ℚ` arithmetic (its normalization goes through `Nat.gcd`), so concrete values
are obtained through `norm_num` on the defining inequalities instead. -/

lemma int_floor_eq (q : ℚ) (k : ℤ) (h1 : (k : ℚ) ≤ q) (h2 : q < k + 1) :
    Int.floor q = k :=
  (Int.floor_eq_iff).2 ⟨h1, h2⟩

lemma roundHalfEven_down (q : ℚ) (k : ℤ) (h1 : (k : ℚ) ≤ q) (h2 : q < (k : ℚ) + 1/2) :
    roundHalfEven q = k := by
  have hf : Int.floor q = k := int_floor_eq q k h1 (by linarith)
  unfold roundHalfEven
  rw [hf, if_pos (by push_cast; linarith)]

lemma roundHalfEven_up (q : ℚ) (k : ℤ) (h1 : (k : ℚ) + 1/2 < q) (h2 : q < (k : ℚ) + 1) :
    roundHalfEven q = k + 1 := by
  have hf : Int.floor q = k := int_floor_eq q k (by linarith) (by push_cast; linarith)
  unfold roundHalfEven
  rw [hf, if_neg (by push_cast; linarith), if_pos (by push_cast; linarith)]

lemma fmtFixed_of_round (prec : ℕ) (q : ℚ) (n : ℕ) (h0 : 0 ≤ q)
    (h : roundHalfEven (q * 10 ^ prec) = (n : ℤ)) :
    fmtFixed prec q = renderScaled prec n := by
  unfold fmtFixed
  rw [if_neg (not_lt.2 h0), h, Int.toNat_natCast]

lemma fmtFixed_round_down (prec : ℕ) (q : ℚ) (n : ℕ)
    (h1 : (n : ℚ) ≤ q * 10 ^ prec) (h2 : q * 10 ^ prec < (n : ℚ) + 1/2) :
    fmtFixed prec q = renderScaled prec n := by
  have h0 : 0 ≤ q := by
    by_contra hq
    push_neg at hq
    have : q * 10 ^ prec < 0 := mul_neg_of_neg_of_pos hq (by positivity)
    have : (0:ℚ) ≤ (n:ℚ) := by positivity
    linarith
  exact fmtFixed_of_round prec q n h0
    (by rw [roundHalfEven_down (q * 10 ^ prec) (n : ℤ) (by exact_mod_cast h1)
          (by push_cast; exact_mod_cast h2)])

lemma fmtFixed_round_up (prec : ℕ) (q : ℚ) (n : ℕ) (hn : 1 ≤ n)
    (h1 : (n : ℚ) - 1/2 < q * 10 ^ prec) (h2 : q * 10 ^ prec < (n : ℚ)) :
    fmtFixed prec q = renderScaled prec n := by
  have h0 : 0 ≤ q := by
    by_contra hq
    push_neg at hq
    have : q * 10 ^ prec < 0 := mul_neg_of_neg_of_pos hq (by positivity)
    have hn' : (1:ℚ) ≤ (n:ℚ) := by exact_mod_cast hn
    linarith
  have hk : roundHalfEven (q * 10 ^ prec) = ((n : ℤ) - 1) + 1 := by
    apply roundHalfEven_up
    · push_cast; linarith
    · push_cast; linarith
  exact fmtFixed_of_round prec q n h0 (by rw [hk]; ring)

lemma fmtFixed_neg (prec : ℕ) (q : ℚ) (h : q < 0) :
    fmtFixed prec q = "-" ++ fmtFixed prec (-q) := by
  unfold fmtFixed
  rw [if_pos h, if_neg (not_lt.2 (by linarith))]

/-! Floor arithmetic over `ℚ`, relating the source's `int(_ // b)` and
`int(_ % b)` on non-negative values to natural division and remainder. -/

lemma floor_toNat_div_nat (s : ℚ) (b : ℕ) :
    (Int.floor (s / (b : ℚ))).toNat = (Int.floor s).toNat / b := by
  rw [Int.floor_toNat, Int.floor_toNat]
  exact Nat.floor_div_nat s b

lemma pyFloorMod_floor_toNat (s : ℚ) (hs : 0 ≤ s) (b : ℕ) :
    (Int.floor (pyFloorMod s (b : ℚ))).toNat = (Int.floor s).toNat % b := by
  have hk0 : 0 ≤ Int.floor (s / (b : ℚ)) :=
    Int.floor_nonneg.2 (div_nonneg hs (by positivity))
  have hN0 : 0 ≤ Int.floor s := Int.floor_nonneg.2 hs
  have hcast : (((Int.floor s).toNat : ℕ) : ℤ) = Int.floor s := Int.toNat_of_nonneg hN0
  have hkN : Int.floor (s / (b : ℚ)) = (((Int.floor s).toNat / b : ℕ) : ℤ) := by
    rw [← floor_toNat_div_nat s b, Int.toNat_of_nonneg hk0]
  have hfl : pyFloorMod s (b : ℚ) =
      s - (((b : ℤ) * (((Int.floor s).toNat / b : ℕ) : ℤ) : ℤ) : ℚ) := by
    unfold pyFloorMod
    rw [hkN]
    push_cast
    ring
  have h2 : Int.floor (pyFloorMod s (b : ℚ)) =
      Int.floor s - (b : ℤ) * (((Int.floor s).toNat / b : ℕ) : ℤ) := by
    rw [hfl, Int.floor_sub_int]
  have hz : ((b : ℤ) * (((Int.floor s).toNat / b : ℕ) : ℤ) +
      (((Int.floor s).toNat % b : ℕ) : ℤ)) = (((Int.floor s).toNat : ℕ) : ℤ) := by
    exact_mod_cast congrArg (fun n : ℕ => (n : ℤ)) (Nat.div_add_mod (Int.floor s).toNat b)
  have h3 : Int.floor (pyFloorMod s (b : ℚ)) = (((Int.floor s).toNat % b : ℕ) : ℤ) := by
    rw [h2]
    linarith [hz, hcast]
  rw [h3, Int.toNat_natCast]

lemma floor_toNat_div_lit (s : ℚ) (b : ℕ) (bq : ℚ) (hb : ((b : ℕ) : ℚ) = bq) :
    (Int.floor (s / bq)).toNat = (Int.floor s).toNat / b := by
  rw [← hb, floor_toNat_div_nat]

lemma pyFloorMod_floor_toNat_lit (s : ℚ) (hs : 0 ≤ s) (b : ℕ) (bq : ℚ)
    (hb : ((b : ℕ) : ℚ) = bq) :
    (Int.floor (pyFloorMod s bq)).toNat = (Int.floor s).toNat % b := by
  rw [← hb, pyFloorMod_floor_toNat s hs]

/-- Closed form of `calculate_time_offset`: the formatted string decomposes
the absolute offset in whole seconds by natural division. -/
lemma time_offset_nat_form (lam : ℚ) :
    yantra_core.calculate_time_offset lam =
      (pad2 ((Int.floor (|(lam - 82.5) * 4| * 60)).toNat / 3600) ++ "h " ++
       pad2 ((Int.floor (|(lam - 82.5) * 4| * 60)).toNat % 3600 / 60) ++ "m " ++
       pad2 ((Int.floor (|(lam - 82.5) * 4| * 60)).toNat % 60) ++ "s " ++
       (if 0 < (lam - 82.5) * 4 then "AHEAD OF" else "BEHIND") ++ " IST",
       (lam - 82.5) * 4) := by
  simp only [yantra_core.calculate_time_offset, yantra_core.IST_REFERENCE_LONGITUDE]
  have hs : 0 ≤ |(lam - 82.5) * 4| * 60 := by positivity
  have hA : (Int.floor (|(lam - 82.5) * 4| * 60 / 3600)).toNat =
      (Int.floor (|(lam - 82.5) * 4| * 60)).toNat / 3600 :=
    floor_toNat_div_lit _ 3600 3600 (by norm_num)
  have hB : (Int.floor (pyFloorMod (|(lam - 82.5) * 4| * 60) 3600 / 60)).toNat =
      (Int.floor (|(lam - 82.5) * 4| * 60)).toNat % 3600 / 60 := by
    rw [floor_toNat_div_lit _ 60 60 (by norm_num),
      pyFloorMod_floor_toNat_lit _ hs 3600 3600 (by norm_num)]
  have hC : (Int.floor (pyFloorMod (|(lam - 82.5) * 4| * 60) 60)).toNat =
      (Int.floor (|(lam - 82.5) * 4| * 60)).toNat % 60 :=
    pyFloorMod_floor_toNat_lit _ hs 60 60 (by norm_num)
  rw [hA, hB, hC]

/-- Concrete evaluation of the time offset at the Jaipur longitude. -/
lemma time_offset_jaipur :
    yantra_core.calculate_time_offset 75.8167 = ("00h 26m 43s BEHIND IST", -26.7332) := by
  rw [time_offset_nat_form]
  have habs : |((75.8167 : ℚ) - 82.5) * 4| * 60 = 1603.992 := by
    rw [abs_of_neg (by norm_num)]
    norm_num
  rw [habs, int_floor_eq (1603.992 : ℚ) 1603 (by norm_num) (by norm_num),
    if_neg (by norm_num : ¬(0 : ℚ) < ((75.8167 : ℚ) - 82.5) * 4), Prod.mk.injEq]
  exact ⟨by decide, by norm_num⟩

/-- Concrete evaluation of the time offset at the reference meridian. -/
lemma time_offset_tie :
    yantra_core.calculate_time_offset 82.5 = ("00h 00m 00s BEHIND IST", 0) := by
  rw [time_offset_nat_form]
  have habs : |((82.5 : ℚ) - 82.5) * 4| * 60 = 0 := by norm_num
  rw [habs, Int.floor_zero,
    if_neg (by norm_num : ¬(0 : ℚ) < ((82.5 : ℚ) - 82.5) * 4), Prod.mk.injEq]
  exact ⟨by decide, by norm_num⟩

/-- Claim C1: for every validated input (latitude in `[0,90]`, any longitude,
positive radius) the text-report calculator returns `samrat_angle` as φ
formatted to 3 decimals, `samrat_height` as R·tan(φ in radians) formatted to
3 decimals, and `nadivalaya_tilt` as 90 − φ formatted to 3 decimals (the
angle fields carry the degree sign the source appends). -/
theorem claim_C1_report_fields (t : ℚ → ℚ) (phi lam R : ℚ)
    (h1 : 0 ≤ phi) (h2 : phi ≤ 90) (h3 : 0 < R) :
    (yantra_core.calculate_yantra_dimensions t phi lam R).samrat_angle =
      fmtFixed 3 phi ++ "°" ∧
    (yantra_core.calculate_yantra_dimensions t phi lam R).samrat_height =
      fmtFixed 3 (R * t phi) ∧
    (yantra_core.calculate_yantra_dimensions t phi lam R).nadivalaya_tilt =
      fmtFixed 3 (90 - phi) ++ "°" :=
  ⟨rfl, rfl, rfl⟩

/-- Witness for C1 at φ = 45, λ = 80, R = 10 with the constant-one oracle. -/
theorem claim_C1_report_fields_witness :
    ((0 : ℚ) ≤ 45 ∧ (45 : ℚ) ≤ 90 ∧ (0 : ℚ) < 10) ∧
    ((yantra_core.calculate_yantra_dimensions (fun _ => 1) 45 80 10).samrat_angle =
        fmtFixed 3 45 ++ "°" ∧
     (yantra_core.calculate_yantra_dimensions (fun _ => 1) 45 80 10).samrat_height =
        fmtFixed 3 (10 * (fun _ : ℚ => (1 : ℚ)) 45) ∧
     (yantra_core.calculate_yantra_dimensions (fun _ => 1) 45 80 10).nadivalaya_tilt =
        fmtFixed 3 (90 - 45) ++ "°") :=
  ⟨⟨by norm_num, by norm_num, by norm_num⟩,
    claim_C1_report_fields (fun _ => 1) 45 80 10 (by norm_num) (by norm_num) (by norm_num)⟩

/-- Claim C2: the time-offset operation returns the raw signed minutes
(λ − 82.5)·4 together with the string obtained by taking absolute whole
seconds and decomposing by integer division into hours, minutes and seconds,
labelled "AHEAD OF" for strictly positive offsets and "BEHIND" otherwise;
in particular λ = 82.5 gives exactly 0, labelled "BEHIND". -/
theorem claim_C2_time_offset (lam : ℚ) :
    (yantra_core.calculate_time_offset lam).2 = (lam - 82.5) * 4 ∧
    (yantra_core.calculate_time_offset lam).1 =
      pad2 ((Int.floor (|(lam - 82.5) * 4| * 60)).toNat / 3600) ++ "h " ++
      pad2 ((Int.floor (|(lam - 82.5) * 4| * 60)).toNat % 3600 / 60) ++ "m " ++
      pad2 ((Int.floor (|(lam - 82.5) * 4| * 60)).toNat % 60) ++ "s " ++
      (if 0 < (lam - 82.5) * 4 then "AHEAD OF" else "BEHIND") ++ " IST" ∧
    yantra_core.calculate_time_offset 82.5 = ("00h 00m 00s BEHIND IST", 0) := by
  refine ⟨?_, ?_, time_offset_tie⟩ <;> rw [time_offset_nat_form]

/-- Claim C5: the two rasivalaya zenith distances are (90 − φ) ± 23.44, so
their difference is 2·23.44 for every latitude. -/
theorem claim_C5_rasivalaya_difference (t : ℚ → ℚ) (phi lam R : ℚ) :
    (yantra_core.calculate_yantra_dimensions t phi lam R).rasivalaya_zd_ws =
      fmtFixed 3 ((90 - phi) + 23.44) ++ "°" ∧
    (yantra_core.calculate_yantra_dimensions t phi lam R).rasivalaya_zd_ss =
      fmtFixed 3 ((90 - phi) - 23.44) ++ "°" ∧
    ((90 - phi) + 23.44) - ((90 - phi) - 23.44) = 2 * (23.44 : ℚ) :=
  ⟨rfl, rfl, by ring⟩

/-- Claim C7: unit resolution multiplies by 0.02 and reports symbol "m" for
the traditional Angula option (500 ↦ 10 in particular), and passes the radius
through with the unit's own label for the other three options. -/
theorem claim_C7_unit_resolution (R : ℚ) :
    yantra_web_app.get_scale_factor R ("Angula (approx. 2cm)") = (R * 0.02, "m") ∧
    yantra_web_app.get_scale_factor 500 ("Angula (approx. 2cm)") = (10, "m") ∧
    yantra_web_app.get_scale_factor R ("meters") = (R, "meters") ∧
    yantra_web_app.get_scale_factor R ("feet") = (R, "feet") ∧
    yantra_web_app.get_scale_factor R ("centimeters") = (R, "centimeters") := by
  refine ⟨?_, ?_, ?_, ?_, ?_⟩ <;> unfold yantra_web_app.get_scale_factor
  · rw [if_pos (by decide)]
  · rw [if_pos (by decide), Prod.mk.injEq]
    exact ⟨by norm_num, rfl⟩
  · rw [if_neg (by decide), Prod.mk.injEq]
    exact ⟨rfl, by decide⟩
  · rw [if_neg (by decide), Prod.mk.injEq]
    exact ⟨rfl, by decide⟩
  · rw [if_neg (by decide), Prod.mk.injEq]
    exact ⟨rfl, by decide⟩

/-- Claim C8: degrees-to-DMS takes the integer part of the magnitude as
degrees, the integer part of the fractional remainder times 60 as minutes,
the remainder of that times 60 as seconds to two decimals, and discards the
sign: converting `d` gives the same string as converting `|d|`. -/
theorem claim_C8_deg_to_dms (d : ℚ) :
    yantra_web_app.deg_to_dms (some d) = yantra_web_app.deg_to_dms (some |d|) ∧
    yantra_web_app.deg_to_dms (some d) =
      toString (Int.floor |d|) ++ "° " ++
      toString (Int.floor ((|d| - ((Int.floor |d| : ℤ) : ℚ)) * 60)) ++ "\x27 " ++
      fmtFixed 2 (((|d| - ((Int.floor |d| : ℤ) : ℚ)) * 60 -
        ((Int.floor ((|d| - ((Int.floor |d| : ℤ) : ℚ)) * 60) : ℤ) : ℚ)) * 60) ++ "\x22" := by
  constructor
  · simp only [yantra_web_app.deg_to_dms, abs_abs]
  · simp only [yantra_web_app.deg_to_dms, one_mul]

/-- Claim C9: the interactive-UI variant publishes Samrat base R·cos(φ) and
Samrat vertical height R·sin(φ) (in terms of the effective radius), while the
text-report variant publishes R·tan(φ) under its own `samrat_height` field —
and sin and tan genuinely differ (shown at 45°). -/
theorem claim_C9_samrat_variants (T : TrigDeg) (t : ℚ → ℚ)
    (lat lon R phi lam Rc : ℚ) (u : String) :
    (yantra_web_app.generate_yantra_data T lat lon R u).samrat_base =
      fmtFixed 3 ((yantra_web_app.get_scale_factor R u).1 * T.cosDeg lat) ++ " " ++
        (yantra_web_app.get_scale_factor R u).2 ∧
    (yantra_web_app.generate_yantra_data T lat lon R u).samrat_height =
      fmtFixed 3 ((yantra_web_app.get_scale_factor R u).1 * T.sinDeg lat) ++ " " ++
        (yantra_web_app.get_scale_factor R u).2 ∧
    (yantra_core.calculate_yantra_dimensions t phi lam Rc).samrat_height =
      fmtFixed 3 (Rc * t phi) ∧
    Real.sin (45 * Real.pi / 180) ≠ Real.tan (45 * Real.pi / 180) := by
  refine ⟨rfl, rfl, rfl, ?_⟩
  have h45 : (45 : ℝ) * Real.pi / 180 = Real.pi / 4 := by ring
  rw [h45, Real.sin_pi_div_four, Real.tan_pi_div_four]
  intro h
  have h2 : Real.sqrt 2 = 2 := by linarith
  have h3 := Real.sq_sqrt (by norm_num : (0 : ℝ) ≤ 2)
  rw [h2] at h3
  norm_num at h3

/-- Claim C3: validation accepts latitude exactly on `[0,90]`, longitude on
`[0,180]` and strictly positive radius; a parse failure (malformed numeric
text, modelled by `none`) fails before any range check runs; and any
validation failure aborts the run with no calculation performed. -/
theorem claim_C3_validation (t : ℚ → ℚ) (l n r : ℚ) :
    (yantra_app.parse_and_validate (some l) (some n) (some r) = .ok (l, n, r) ↔
      0 ≤ l ∧ l ≤ 90 ∧ 0 ≤ n ∧ n ≤ 180 ∧ 0 < r) ∧
    (∀ (pl pn' pr' : Option ℚ), (pl = none ∨ pn' = none ∨ pr' = none) →
      yantra_app.parse_and_validate pl pn' pr' = .error .notANumber) ∧
    (∀ (pl pn' pr' : Option ℚ) (e : yantra_app.InvalidInput),
      yantra_app.parse_and_validate pl pn' pr' = .error e →
      yantra_app.main_result t pl pn' pr' = none) ∧
    yantra_app.parse_and_validate (some 0) (some 80) (some 1) = .ok (0, 80, 1) ∧
    yantra_app.parse_and_validate (some 90) (some 80) (some 1) = .ok (90, 80, 1) ∧
    yantra_app.parse_and_validate (some 90.0001) (some 80) (some 1) =
      .error .latOutOfRange ∧
    yantra_app.parse_and_validate (some (-0.0001)) (some 80) (some 1) =
      .error .latOutOfRange ∧
    yantra_app.parse_and_validate (some 45) (some 80) (some 0) =
      .error .radiusNotPositive ∧
    yantra_app.parse_and_validate (some 45) (some 80) (some 0.0001) =
      .ok (45, 80, 0.0001) := by
  refine ⟨?_, ?_, ?_, ?_, ?_, ?_, ?_, ?_, ?_⟩
  · show yantra_app.validate_inputs l n r = .ok (l, n, r) ↔ _
    unfold yantra_app.validate_inputs
    constructor
    · intro h
      split_ifs at h with h1 h2 h3 <;>
        first
          | exact ⟨h1.1, h1.2, h2.1, h2.2, not_le.1 h3⟩
          | simp at h
    · rintro ⟨ha, hb, hc, hd, he⟩
      rw [if_neg (not_not_intro ⟨ha, hb⟩), if_neg (not_not_intro ⟨hc, hd⟩),
        if_neg (not_le.2 he)]
  · intro pl pn' pr' hn
    cases pl <;> cases pn' <;> cases pr' <;>
      first
        | rfl
        | (rcases hn with h | h | h <;> simp at h)
  · intro pl pn' pr' e h
    unfold yantra_app.main_result
    rw [h]
  · show yantra_app.validate_inputs 0 80 1 = _
    unfold yantra_app.validate_inputs
    rw [if_neg (by norm_num), if_neg (by norm_num), if_neg (by norm_num)]
  · show yantra_app.validate_inputs 90 80 1 = _
    unfold yantra_app.validate_inputs
    rw [if_neg (by norm_num), if_neg (by norm_num), if_neg (by norm_num)]
  · show yantra_app.validate_inputs 90.0001 80 1 = _
    unfold yantra_app.validate_inputs
    rw [if_pos (by norm_num)]
  · show yantra_app.validate_inputs (-0.0001) 80 1 = _
    unfold yantra_app.validate_inputs
    rw [if_pos (by norm_num)]
  · show yantra_app.validate_inputs 45 80 0 = _
    unfold yantra_app.validate_inputs
    rw [if_neg (by norm_num), if_neg (by norm_num), if_pos (by norm_num)]
  · show yantra_app.validate_inputs 45 80 0.0001 = _
    unfold yantra_app.validate_inputs
    rw [if_neg (by norm_num), if_neg (by norm_num), if_neg (by norm_num)]

lemma roundHalfEven_center (q : ℚ) (k : ℤ)
    (h1 : (k : ℚ) - 1/2 < q) (h2 : q < (k : ℚ) + 1/2) : roundHalfEven q = k := by
  rcases le_or_lt (k : ℚ) q with h | h
  · exact roundHalfEven_down q k h h2
  · have h' := roundHalfEven_up q (k - 1) (by push_cast; linarith) (by push_cast; linarith)
    omega

lemma fmtFixed_center (prec : ℕ) (q : ℚ) (n : ℕ) (h0 : 0 ≤ q)
    (h1 : (n : ℚ) - 1/2 < q * 10 ^ prec) (h2 : q * 10 ^ prec < (n : ℚ) + 1/2) :
    fmtFixed prec q = renderScaled prec n :=
  fmtFixed_of_round prec q n h0
    (roundHalfEven_center _ _ (by push_cast; linarith) (by push_cast; linarith))

/-- Any rational in the open interval around the true tangent value formats
the Jaipur samrat height to `5.077`. -/
lemma fmt_samrat_interval (q : ℚ) (h1 : 0.50765 < q) (h2 : q < 0.50775) :
    fmtFixed 3 (10 * q) = "5.077" := by
  rw [fmtFixed_center 3 (10 * q) 5077 (by linarith) (by push_cast; linarith)
    (by push_cast; linarith)]
  rfl

/-- One step of interval arithmetic through the double-angle formulas. -/
lemma sin_cos_double_step {θ slo shi clo chi : ℝ}
    (hs1 : slo ≤ Real.sin θ) (hs2 : Real.sin θ ≤ shi)
    (hc1 : clo ≤ Real.cos θ) (hc2 : Real.cos θ ≤ chi)
    (h0s : 0 ≤ slo) (h0c : 0 ≤ clo) :
    2 * slo * clo ≤ Real.sin (2 * θ) ∧ Real.sin (2 * θ) ≤ 2 * shi * chi ∧
    2 * clo ^ 2 - 1 ≤ Real.cos (2 * θ) ∧ Real.cos (2 * θ) ≤ 2 * chi ^ 2 - 1 := by
  rw [Real.sin_two_mul, Real.cos_two_mul]
  refine ⟨?_, ?_, ?_, ?_⟩ <;> nlinarith

set_option maxHeartbeats 1600000 in
/-- Certified bounds on `tan (26.9167°)`: the Taylor bounds `Real.sin_bound`
and `Real.cos_bound` at the sixteenth of the angle, followed by four
double-angle steps of interval arithmetic. -/
lemma tan_jaipur_bounds :
    (0.507688 : ℝ) ≤ Real.tan (((26.9167 : ℚ) : ℝ) * Real.pi / 180) ∧
    Real.tan (((26.9167 : ℚ) : ℝ) * Real.pi / 180) ≤ 0.507708 := by
  have hlit : ((26.9167 : ℚ) : ℝ) = (26.9167 : ℝ) := by norm_num
  rw [hlit]
  have hpi1 : (3.141592 : ℝ) < Real.pi := Real.pi_gt_d6
  have hpi2 : Real.pi < 3.141593 := Real.pi_lt_d6
  set y : ℝ := 26.9167 * Real.pi / 2880 with hy_def
  have hy1 : (0.029361558 : ℝ) < y := by rw [hy_def]; linarith
  have hy2 : y < 0.029361569 := by rw [hy_def]; linarith
  have hy0 : 0 < y := by linarith
  have hyabs : |y| ≤ 1 := by rw [abs_of_pos hy0]; linarith
  have hsb := abs_le.1 (Real.sin_bound hyabs)
  have hcb := abs_le.1 (Real.cos_bound hyabs)
  have hysq : y ^ 2 ≤ (0.029361569 : ℝ) ^ 2 := by
    nlinarith [mul_nonneg (by linarith : (0:ℝ) ≤ 0.029361569 - y)
      (by linarith : (0:ℝ) ≤ 0.029361569 + y)]
  have hysq' : (0.029361558 : ℝ) ^ 2 ≤ y ^ 2 := by
    nlinarith [mul_nonneg (by linarith : (0:ℝ) ≤ y - 0.029361558)
      (by linarith : (0:ℝ) ≤ y + 0.029361558)]
  have hy4 : |y| ^ 4 * (5 / 96) ≤ 0.000000039 := by
    rw [abs_of_pos hy0]
    have hy4' : y ^ 4 ≤ (0.029361569 : ℝ) ^ 4 := by
      nlinarith [mul_nonneg (sub_nonneg.2 hysq)
        (by positivity : (0:ℝ) ≤ (0.029361569 : ℝ) ^ 2 + y ^ 2)]
    linarith
  have hcub1 : (0.029361558 : ℝ) - 0.029361558 ^ 3 / 6 ≤ y - y ^ 3 / 6 := by
    have hfac : (y - y ^ 3 / 6) - ((0.029361558 : ℝ) - 0.029361558 ^ 3 / 6) =
        (y - 0.029361558) * (1 - (y ^ 2 + 0.029361558 * y + 0.029361558 ^ 2) / 6) := by
      ring
    nlinarith [mul_nonneg (by linarith : (0:ℝ) ≤ y - 0.029361558)
      (by nlinarith [hysq] : (0:ℝ) ≤ 1 - (y ^ 2 + 0.029361558 * y + 0.029361558 ^ 2) / 6)]
  have hcub2 : y - y ^ 3 / 6 ≤ (0.029361569 : ℝ) - 0.029361569 ^ 3 / 6 := by
    have hfac : ((0.029361569 : ℝ) - 0.029361569 ^ 3 / 6) - (y - y ^ 3 / 6) =
        (0.029361569 - y) * (1 - (y ^ 2 + 0.029361569 * y + 0.029361569 ^ 2) / 6) := by
      ring
    nlinarith [mul_nonneg (by linarith : (0:ℝ) ≤ 0.029361569 - y)
      (by nlinarith [hysq] : (0:ℝ) ≤ 1 - (y ^ 2 + 0.029361569 * y + 0.029361569 ^ 2) / 6)]
  have hs1a : (0.029357300 : ℝ) ≤ Real.sin y := by linarith [hsb.1]
  have hs1b : Real.sin y ≤ 0.029357390 := by linarith [hsb.2]
  have hc1a : (0.999568910 : ℝ) ≤ Real.cos y := by linarith [hcb.1]
  have hc1b : Real.cos y ≤ 0.999568989 := by linarith [hcb.2]
  obtain ⟨h2a, h2b, h2c, h2d⟩ :=
    sin_cos_double_step hs1a hs1b hc1a hc1b (by norm_num) (by norm_num)
  have hs2a : (0.058689288 : ℝ) ≤ Real.sin (2 * y) := le_trans (by norm_num) h2a
  have hs2b : Real.sin (2 * y) ≤ 0.058689474 := le_trans h2b (by norm_num)
  have hc2a : (0.998276011 : ℝ) ≤ Real.cos (2 * y) := le_trans (by norm_num) h2c
  have hc2b : Real.cos (2 * y) ≤ 0.998276328 := le_trans h2d (by norm_num)
  obtain ⟨h4a, h4b, h4c, h4d⟩ :=
    sin_cos_double_step hs2a hs2b hc2a hc2b (by norm_num) (by norm_num)
  have hs4a : (0.117176216 : ℝ) ≤ Real.sin (2 * (2 * y)) := le_trans (by norm_num) h4a
  have hs4b : Real.sin (2 * (2 * y)) ≤ 0.117176626 := le_trans h4b (by norm_num)
  have hc4a : (0.993109988 : ℝ) ≤ Real.cos (2 * (2 * y)) := le_trans (by norm_num) h4c
  have hc4b : Real.cos (2 * (2 * y)) ≤ 0.993111255 := le_trans h4d (by norm_num)
  obtain ⟨h8a, h8b, h8c, h8d⟩ :=
    sin_cos_double_step hs4a hs4b hc4a hc4b (by norm_num) (by norm_num)
  have hs8a : (0.232737740 : ℝ) ≤ Real.sin (2 * (2 * (2 * y))) :=
    le_trans (by norm_num) h8a
  have hs8b : Real.sin (2 * (2 * (2 * y))) ≤ 0.232738853 := le_trans h8b (by norm_num)
  have hc8a : (0.972534896 : ℝ) ≤ Real.cos (2 * (2 * (2 * y))) :=
    le_trans (by norm_num) h8c
  have hc8b : Real.cos (2 * (2 * (2 * y))) ≤ 0.972539930 := le_trans h8d (by norm_num)
  obtain ⟨h16a, h16b, h16c, h16d⟩ :=
    sin_cos_double_step hs8a hs8b hc8a hc8b (by norm_num) (by norm_num)
  have hs16a : (0.452691147 : ℝ) ≤ Real.sin (2 * (2 * (2 * (2 * y)))) :=
    le_trans (by norm_num) h16a
  have hs16b : Real.sin (2 * (2 * (2 * (2 * y)))) ≤ 0.452695656 :=
    le_trans h16b (by norm_num)
  have hc16a : (0.891648247 : ℝ) ≤ Real.cos (2 * (2 * (2 * (2 * y)))) :=
    le_trans (by norm_num) h16c
  have hc16b : Real.cos (2 * (2 * (2 * (2 * y)))) ≤ 0.891667831 :=
    le_trans h16d (by norm_num)
  have hang : 2 * (2 * (2 * (2 * y))) = (26.9167 : ℝ) * Real.pi / 180 := by
    rw [hy_def]; ring
  rw [← hang, Real.tan_eq_sin_div_cos]
  have hcpos : (0 : ℝ) < Real.cos (2 * (2 * (2 * (2 * y)))) := by linarith
  constructor
  · rw [le_div_iff₀ hcpos]
    nlinarith [hs16a, hc16b]
  · rw [div_le_iff₀ hcpos]
    nlinarith [hs16b, hc16a]

/-- The concrete oracle value `0.50770` is within the accuracy envelope of
the true tangent at the Jaipur latitude. -/
lemma tanRef_accurate : TanDegAccurate (fun _ => (0.50770 : ℚ)) 26.9167 := by
  show |(((0.50770 : ℚ) : ℚ) : ℝ) - Real.tan (((26.9167 : ℚ) : ℝ) * Real.pi / 180)| < 1/50000
  obtain ⟨hL, hU⟩ := tan_jaipur_bounds
  rw [abs_lt]
  constructor <;> push_cast <;> linarith

/-- Claim C4, counterexample: the claimed samrat height "5.081" is false at
the stated input.  Any oracle within the accuracy envelope of the true
`tan (26.9167°)` — for instance the constant `0.50770`, which
`tanRef_accurate` certifies — makes the calculator print a different string,
since `10·tan (26.9167°) ≈ 5.0769`. -/
theorem claim_C4_jaipur_counterexample :
    ¬ ∀ t : ℚ → ℚ, TanDegAccurate t 26.9167 →
      (yantra_core.calculate_yantra_dimensions t 26.9167 75.8167 10).samrat_height =
        "5.081" := by
  intro h
  have h5077 : (yantra_core.calculate_yantra_dimensions (fun _ => (0.50770 : ℚ))
      26.9167 75.8167 10).samrat_height = "5.077" := by
    show fmtFixed 3 (10 * (0.50770 : ℚ)) = "5.077"
    exact fmt_samrat_interval _ (by norm_num) (by norm_num)
  have h5081 := h (fun _ => (0.50770 : ℚ)) tanRef_accurate
  rw [h5077] at h5081
  exact absurd h5081 (by decide)

/-- Claim C4 (amended): for φ = 26.9167, λ = 75.8167, R = 10 the output has
samrat_angle "26.917°", samrat_height "5.077" (the true 10·tan(26.9167°) ≈
5.0769 formats to "5.077", not the claimed "5.081"), nadivalaya_tilt
"63.083°", rasivalaya_zd_ws "86.523°", rasivalaya_zd_ss "39.643°", raw
offset −26.7332 minutes and time string "00h 26m 43s BEHIND IST". -/
theorem claim_C4_jaipur_scenario (t : ℚ → ℚ) (ht : TanDegAccurate t 26.9167) :
    (yantra_core.calculate_yantra_dimensions t 26.9167 75.8167 10).samrat_angle =
      "26.917°" ∧
    (yantra_core.calculate_yantra_dimensions t 26.9167 75.8167 10).samrat_height =
      "5.077" ∧
    (yantra_core.calculate_yantra_dimensions t 26.9167 75.8167 10).nadivalaya_tilt =
      "63.083°" ∧
    (yantra_core.calculate_yantra_dimensions t 26.9167 75.8167 10).rasivalaya_zd_ws =
      "86.523°" ∧
    (yantra_core.calculate_yantra_dimensions t 26.9167 75.8167 10).rasivalaya_zd_ss =
      "39.643°" ∧
    (yantra_core.calculate_yantra_dimensions t 26.9167 75.8167 10).time_offset_min =
      -26.7332 ∧
    (yantra_core.calculate_yantra_dimensions t 26.9167 75.8167 10).time_offset_str =
      "00h 26m 43s BEHIND IST" := by
  have habs := abs_lt.1 ht
  obtain ⟨hL, hU⟩ := tan_jaipur_bounds
  have hq1 : (0.50765 : ℚ) < t 26.9167 := by
    have h' : ((0.50765 : ℚ) : ℝ) < ((t 26.9167 : ℚ) : ℝ) := by
      push_cast
      linarith [habs.1]
    exact_mod_cast h'
  have hq2 : t 26.9167 < 0.50775 := by
    have h' : ((t 26.9167 : ℚ) : ℝ) < ((0.50775 : ℚ) : ℝ) := by
      push_cast
      linarith [habs.2]
    exact_mod_cast h'
  refine ⟨?_, ?_, ?_, ?_, ?_, ?_, ?_⟩
  · show fmtFixed 3 (26.9167 : ℚ) ++ "°" = "26.917°"
    rw [fmtFixed_round_up 3 26.9167 26917 (by norm_num) (by norm_num) (by norm_num)]
    rfl
  · show fmtFixed 3 (10 * t 26.9167) = "5.077"
    exact fmt_samrat_interval _ hq1 hq2
  · show fmtFixed 3 ((90 : ℚ) - 26.9167) ++ "°" = "63.083°"
    rw [fmtFixed_round_down 3 _ 63083 (by norm_num) (by norm_num)]
    rfl
  · show fmtFixed 3 ((90 : ℚ) - 26.9167 + 23.44) ++ "°" = "86.523°"
    rw [fmtFixed_round_down 3 _ 86523 (by norm_num) (by norm_num)]
    rfl
  · show fmtFixed 3 ((90 : ℚ) - 26.9167 - 23.44) ++ "°" = "39.643°"
    rw [fmtFixed_round_down 3 _ 39643 (by norm_num) (by norm_num)]
    rfl
  · show (yantra_core.calculate_time_offset 75.8167).2 = -26.7332
    rw [time_offset_jaipur]
  · show (yantra_core.calculate_time_offset 75.8167).1 = "00h 26m 43s BEHIND IST"
    rw [time_offset_jaipur]

/-- Witness for the amended C4, at the concrete oracle constantly 0.50770. -/
theorem claim_C4_jaipur_scenario_witness :
    TanDegAccurate (fun _ => (0.50770 : ℚ)) 26.9167 ∧
    ((yantra_core.calculate_yantra_dimensions (fun _ => (0.50770 : ℚ))
        26.9167 75.8167 10).samrat_angle = "26.917°" ∧
     (yantra_core.calculate_yantra_dimensions (fun _ => (0.50770 : ℚ))
        26.9167 75.8167 10).samrat_height = "5.077" ∧
     (yantra_core.calculate_yantra_dimensions (fun _ => (0.50770 : ℚ))
        26.9167 75.8167 10).nadivalaya_tilt = "63.083°" ∧
     (yantra_core.calculate_yantra_dimensions (fun _ => (0.50770 : ℚ))
        26.9167 75.8167 10).rasivalaya_zd_ws = "86.523°" ∧
     (yantra_core.calculate_yantra_dimensions (fun _ => (0.50770 : ℚ))
        26.9167 75.8167 10).rasivalaya_zd_ss = "39.643°" ∧
     (yantra_core.calculate_yantra_dimensions (fun _ => (0.50770 : ℚ))
        26.9167 75.8167 10).time_offset_min = -26.7332 ∧
     (yantra_core.calculate_yantra_dimensions (fun _ => (0.50770 : ℚ))
        26.9167 75.8167 10).time_offset_str = "00h 26m 43s BEHIND IST") :=
  ⟨tanRef_accurate, claim_C4_jaipur_scenario _ tanRef_accurate⟩

/-- Claim C10: the calculator duplicated in `yantra_report_app.py` agrees
field-for-field (formatted strings, raw minutes, calibration chart) with the
one in `yantra_core.py`, for every input and every oracle. -/
theorem claim_C10_duplicate_equivalence (t : ℚ → ℚ) (phi lam R : ℚ) :
    yantra_report_app.calculate_yantra_dimensions t phi lam R =
      yantra_core.calculate_yantra_dimensions t phi lam R ∧
    yantra_report_app.calculate_time_offset lam =
      yantra_core.calculate_time_offset lam :=
  ⟨rfl, rfl⟩
